import Mathlib

/-!
Verification of the gm-afm-dongle live-telemetry console against its
natural-language specification.

The definitions below are a shallow embedding of the Python sources
(`my_uds.py`, `liveview.py`, `sim_can.py`, `listener.py`, `tester_tool.py`):
CAN payloads become `List Nat` (one byte per element), Python exceptions
become `Except PyErr`, the on-screen value cache becomes a function
`SigKey → Option String`, and the persisted active-set store becomes pure
functions over parsed JSON data.  Definitions keep the source's names where
Lean allows it.  Machine integers are modelled as `Nat`/`Int`; the source
only ever masks 11-bit arbitration ids and combines single bytes, so no
extra wrap-around is introduced.
-/

/-- Python exception kinds that the embedded code can raise. -/
inductive PyErr where
  | indexError
  | nameError
  | typeError
deriving DecidableEq

/-- Indexing `data[i]` on a Python sequence: the element, or `IndexError`. -/
def pyIndex (data : List Nat) (i : Nat) : Except PyErr Nat :=
  match data.get? i with
  | some b => Except.ok b
  | none => Except.error PyErr.indexError

/-- Uppercase hexadecimal of `n`, zero-padded on the left to width `w`
(Python `f-string` directives such as `02X`, `03X`, `04X`). -/
def pyHexUpper (n w : Nat) : String :=
  let ds := (Nat.toDigits 16 n).map Char.toUpper
  String.mk (List.replicate (w - ds.length) '0' ++ ds)

/-- Source my_uds.py `' '.join(f'{b:02X}' for b in data)`. -/
def hexBytes (data : List Nat) : String :=
  String.intercalate " " (data.map (fun b => pyHexUpper b 2))

/-! ## Decode functions (my_uds.py lines 13-43)

Each of these raises `ValueError` on a too-short payload, modelled as
`Except.error` carrying the message. -/

/-- Source my_uds.py `decode_pressure`. -/
def decode_pressure : List Nat → Except String String
  | [] => Except.error "Pressure PID expects >=1 byte payload"
  | b :: _ => Except.ok (toString b ++ " kPa")

/-- Round half to even of `n / 4`.  This models the Python expression
`((data[0] << 8) | data[1]) / 4` (exact IEEE-double division for 16-bit
values) followed by `:.0f` formatting, which rounds half to even. -/
def roundQuarters (n : Nat) : Nat :=
  let q := n / 4
  let r := n % 4
  if r < 2 then q
  else if r = 2 then (if q % 2 = 0 then q else q + 1)
  else q + 1

/-- Source my_uds.py `decode_rpm`: `f"{(((data[0] << 8) | data[1]) / 4):.0f} rpm"`. -/
def decode_rpm : List Nat → Except String String
  | b0 :: b1 :: _ => Except.ok (toString (roundQuarters ((b0 <<< 8) ||| b1)) ++ " rpm")
  | _ => Except.error "RPM PID expects >=2 byte payload"

/-- Source my_uds.py `decode_speed`. -/
def decode_speed : List Nat → Except String String
  | [] => Except.error "Speed PID expects >=1 byte payload"
  | b :: _ => Except.ok (toString b ++ " km/h")

/-- Value of `data[0] * 100.0 / 255.0` in tenths, rounded to the nearest tenth.
The exact rational `b*1000/255` is never a half (255 is odd), and the IEEE
double intermediate is far closer to the exact value than to any rounding
boundary, so this agrees with Python's `:.1f` output for every byte. -/
def percentTenths (b : Nat) : Nat :=
  let num := b * 1000
  let q := num / 255
  if 2 * (num % 255) < 255 then q else q + 1

/-- Source my_uds.py `decode_percent`: `f"{data[0] * 100.0 / 255.0:.1f} %"`. -/
def decode_percent : List Nat → Except String String
  | [] => Except.error "Percent PID expects >=1 byte payload"
  | b :: _ =>
    Except.ok (toString (percentTenths b / 10) ++ "." ++ toString (percentTenths b % 10) ++ " %")

/-- Source my_uds.py `decode_temp`: `f"{data[0] - 40} °C"` (Python int arithmetic,
may be negative). -/
def decode_temp : List Nat → Except String String
  | [] => Except.error "Temperature PID expects >=1 byte payload"
  | b :: _ => Except.ok (toString ((b : Int) - 40) ++ " °C")

/-- Source my_uds.py `decode_voltage`: `f"{data[0] / 10:.1f} V"` (the quotient has
exactly one decimal digit, so the float formatting is exact). -/
def decode_voltage : List Nat → Except String String
  | [] => Except.error "Voltage expects >=1 byte payload"
  | b :: _ => Except.ok (toString (b / 10) ++ "." ++ toString (b % 10) ++ " V")

/-- Source my_uds.py `decode_generic`. -/
def decode_generic : List Nat → Except String String
  | data => Except.ok (hexBytes data)

/-- Source my_uds.py `decode_yes_no`. -/
def decode_yes_no : List Nat → Except String String
  | [] => Except.error "Boolean field expects >=1 byte payload"
  | b :: _ => Except.ok (if b ≠ 0 then "Yes" else "No")

/-! ## Signal catalog (my_uds.py lines 49-123) -/

/-- The info part of a catalog row: `(label, description, decode_fn)`. -/
structure SigInfo where
  label : String
  desc : String
  decode : List Nat → Except String String

/-- Source my_uds.py `PID_LIST` (Mode 1 parameter ids), in declared order. -/
def PID_LIST : List ((Nat × Nat) × SigInfo) := [
  ((0x7E0, 0x04), ⟨"Calculated Engine Load", "Engine load as a percentage", decode_percent⟩),
  ((0x7E0, 0x05), ⟨"ECT", "Engine coolant temperature", decode_temp⟩),
  ((0x7E0, 0x06), ⟨"STFT B1", "Bank 1 short-term fuel trim", decode_percent⟩),
  ((0x7E0, 0x07), ⟨"LTFT B1", "Bank 1 long-term fuel trim", decode_percent⟩),
  ((0x7E0, 0x08), ⟨"STFT B2", "Bank 2 short-term fuel trim", decode_percent⟩),
  ((0x7E0, 0x09), ⟨"LTFT B2", "Bank 2 long-term fuel trim", decode_percent⟩),
  ((0x7E0, 0x0A), ⟨"FP", "Fuel rail pressure", decode_pressure⟩),
  ((0x7E0, 0x0B), ⟨"MAP", "Intake manifold pressure in kPa", decode_pressure⟩),
  ((0x7E0, 0x0C), ⟨"RPM", "Engine speed in revolutions per minute", decode_rpm⟩),
  ((0x7E0, 0x0D), ⟨"VSS", "Vehicle speed in km/h", decode_speed⟩),
  ((0x7E0, 0x0E), ⟨"Timing Advance", "Ignition timing advance before TDC", decode_generic⟩),
  ((0x7E0, 0x0F), ⟨"Intake Air Temperature", "Temperature of air entering engine", decode_temp⟩),
  ((0x7E0, 0x10), ⟨"MAF", "Mass air flow rate into engine", decode_generic⟩),
  ((0x7E0, 0x11), ⟨"TPS", "Throttle position sensor", decode_percent⟩),
  ((0x7E0, 0x46), ⟨"AAT", "Outside air temperature", decode_temp⟩),
  ((0x7E0, 0x1F), ⟨"Run Time Since Engine Start", "Elapsed time since engine started", decode_generic⟩),
  ((0x7E0, 0x21), ⟨"Distance with MIL On", "Distance traveled with MIL on", decode_generic⟩),
  ((0x7E0, 0x2F), ⟨"Fuel Level Input", "Fuel level as a percentage", decode_percent⟩),
  ((0x7E0, 0x33), ⟨"Barometric Pressure", "Ambient barometric pressure", decode_pressure⟩),
  ((0x7E0, 0x46), ⟨"Ambient Air Temperature", "Outside air temperature", decode_temp⟩),
  ((0x7E0, 0x5C), ⟨"Engine Oil Temperature", "Temperature of engine oil", decode_temp⟩),
  ((0x7E0, 0x5E), ⟨"Engine Fuel Rate", "Fuel consumption rate", decode_generic⟩)]

/-- Source my_uds.py `DID_LIST` (UDS data identifiers), in declared order. -/
def DID_LIST : List ((Nat × Nat) × SigInfo) := [
  ((0x7E0, 0x1000), ⟨"ECU Identification", "ECU hardware and software identifiers", decode_generic⟩),
  ((0x7E0, 0x1001), ⟨"VIN", "Vehicle Identification Number", decode_generic⟩),
  ((0x7E0, 0x1003), ⟨"Calibration ID", "Software calibration identifier", decode_generic⟩),
  ((0x7E0, 0x1005), ⟨"ECU Serial Number", "Unique ECU serial number", decode_generic⟩),
  ((0x7E0, 0x1010), ⟨"ECU Software Version", "Software version of ECU", decode_generic⟩),
  ((0x7E0, 0x1100), ⟨"Engine Speed", "Current engine speed (RPM)", decode_rpm⟩),
  ((0x7E0, 0x1101), ⟨"Vehicle Speed", "Vehicle speed in km/h", decode_speed⟩),
  ((0x7E0, 0x1102), ⟨"Throttle Position", "Throttle angle position", decode_percent⟩),
  ((0x7E0, 0x1103), ⟨"Intake Manifold Pressure", "Intake manifold pressure", decode_pressure⟩),
  ((0x7E0, 0x1104), ⟨"Engine Load", "Engine load as a percentage", decode_percent⟩),
  ((0x7E0, 0x1105), ⟨"Mass Air Flow", "Mass air flow rate", decode_generic⟩),
  ((0x7E0, 0x1106), ⟨"Intake Air Temperature", "Temperature of intake air", decode_temp⟩),
  ((0x7E0, 0x1107), ⟨"Coolant Temperature", "Engine coolant temperature", decode_temp⟩),
  ((0x7E0, 0x1108), ⟨"Barometric Pressure", "Atmospheric pressure", decode_pressure⟩),
  ((0x7E0, 0x1110), ⟨"Fuel Rail Pressure", "Fuel rail pressure", decode_pressure⟩),
  ((0x7E0, 0x1111), ⟨"Fuel Pump Command", "Fuel pump control signal", decode_percent⟩),
  ((0x7E0, 0x1112), ⟨"Oil Pressure", "Measured engine oil pressure", decode_pressure⟩),
  ((0x7E0, 0x1113), ⟨"Oil Temperature", "Measured oil temperature", decode_temp⟩),
  ((0x7E0, 0x1900), ⟨"AFM Active Cylinders Mask", "Active cylinder bitmask", decode_generic⟩),
  ((0x7E0, 0x1901), ⟨"AFM Mode Active", "Indicates if AFM is currently active", decode_yes_no⟩),
  ((0x7E0, 0x1902), ⟨"AFM Commanded State", "AFM commanded on/off state", decode_yes_no⟩),
  ((0x7E0, 0x1903), ⟨"AFM Transition Counter", "Counts AFM on/off transitions", decode_generic⟩),
  ((0x7E0, 0x1904), ⟨"AFM Desired Cylinder Torque", "Desired torque in AFM mode", decode_generic⟩),
  ((0x7E0, 0x1905), ⟨"AFM Actual Cylinder Torque", "Measured torque in AFM mode", decode_generic⟩),
  ((0x7E0, 0x1906), ⟨"AFM Intake Manifold Pressure", "MAP during AFM mode", decode_pressure⟩),
  ((0x7E0, 0x1907), ⟨"AFM Estimated Fuel Savings", "Estimated fuel saved by AFM", decode_percent⟩),
  ((0x7E0, 0x1910), ⟨"AFM Fault Status", "Current AFM fault state", decode_generic⟩),
  ((0x7E0, 0x1911), ⟨"AFM Enable Criteria Satisfied", "If AFM enable conditions are met", decode_yes_no⟩),
  ((0x7E0, 0x1912), ⟨"AFM Disable Reason", "Reason AFM disabled", decode_generic⟩),
  ((0x7E0, 0x2000), ⟨"Gear Position", "Transmission gear selection", decode_generic⟩),
  ((0x7E0, 0x2001), ⟨"Trans Oil Temp", "Transmission oil temperature", decode_temp⟩),
  ((0x7E0, 0x2002), ⟨"Clutch Command", "Torque converter clutch command", decode_generic⟩),
  ((0x7E0, 0x2003), ⟨"VSS", "Vehicle speed sensor reading", decode_speed⟩),
  ((0x7E0, 0x2010), ⟨"Brake Pedal Pos", "Brake pedal position sensor", decode_percent⟩),
  ((0x7E0, 0x2011), ⟨"Accel Pedal Pos", "Accelerator pedal position sensor", decode_percent⟩),
  ((0x7E0, 0x2020), ⟨"Steering Angle", "Current steering wheel angle", decode_generic⟩),
  ((0x7E0, 0x2021), ⟨"Yaw Rate", "Vehicle yaw rate", decode_generic⟩),
  ((0x7E0, 0x3000), ⟨"Ambient Temp", "Outside air temperature", decode_temp⟩),
  ((0x7E0, 0x3001), ⟨"Battery Voltage", "System voltage", decode_voltage⟩),
  ((0x7E0, 0x3002), ⟨"Alternator Load", "Alternator output load", decode_percent⟩),
  ((0x7E0, 0x3003), ⟨"Odometer", "Total vehicle distance traveled", decode_generic⟩),
  ((0x7E0, 0x3004), ⟨"Ignition Status", "Ignition key/run state", decode_generic⟩),
  ((0x7E0, 0xF40C), ⟨"GM Engine Load (Alt)", "Alternate engine load calculation", decode_percent⟩),
  ((0x7E0, 0xF41F), ⟨"GM AFM Active", "Active Fuel Management engaged", decode_yes_no⟩)]

/-- Source my_uds.py line 46:
`search_list = lambda arb_id, pid, id_list: next((v for k, v in id_list if k == (arb_id, pid)), None)`. -/
def search_list (arb_id pid : Nat) (id_list : List ((Nat × Nat) × SigInfo)) : Option SigInfo :=
  (id_list.find? (fun e => e.1 == (arb_id, pid))).map Prod.snd

/-- A signal key triple `(nodeAddress, serviceId, parameterId)`. -/
abbrev SigKey := Nat × Nat × Nat

/-- Source liveview.py `iter_all_signals` (lines 20-28): all PID entries tagged
with service 0x01 followed by all DID entries tagged with service 0x22. -/
def iter_all_signals : List (SigKey × SigInfo) :=
  PID_LIST.map (fun e => ((e.1.1, 0x01, e.1.2), e.2))
  ++ DID_LIST.map (fun e => ((e.1.1, 0x22, e.1.2), e.2))

/-- The declared keys of the merged catalog, in order. -/
def catalog_keys : List SigKey :=
  iter_all_signals.map Prod.fst

/-- Catalog lookup of a full `(nodeAddress, serviceId, parameterId)` triple, as the
source assembles it from `search_list`: liveview.py line 94 picks
`PID_LIST if sid == 0x01 else DID_LIST` and searches it for `(can_id, pid)`. -/
def lookup_signal (can_id sid pid : Nat) : Option SigInfo :=
  search_list can_id pid (if sid == 0x01 then PID_LIST else DID_LIST)

/-- Whether the entry found by the pair search (if any) has exactly the searched
declared key; used to state that a successful lookup returns an entry whose key
equals the searched triple. -/
def found_key_matches (arb_id pid : Nat) (id_list : List ((Nat × Nat) × SigInfo)) : Bool :=
  match id_list.find? (fun e => e.1 == (arb_id, pid)) with
  | some e => e.1 == (arb_id, pid)
  | none => true

/-! ## Response frame decoding (my_uds.py lines 176-268) -/

/-- Value of `(b0 << 8 | b1) / 10.0` formatted `:.1f` (exactly one decimal digit,
so the float formatting is exact), as in `decode_did` for DID 0xF40C. -/
def fmtTenthsPercent (b0 b1 : Nat) : String :=
  let n := (b0 <<< 8) ||| b1
  toString (n / 10) ++ "." ++ toString (n % 10) ++ "%"

/-- Source my_uds.py `decode_did` (lines 176-182).  Its only call site inside
`decode_7E8_7E9` references the local variable `did` before assignment, so in
the source this function is never actually reached from that path. -/
def decode_did (did : Nat) (payload : List Nat) : Except PyErr (Option String) :=
  if did == 0xF41F then
    match payload with
    | [] => Except.error PyErr.indexError
    | b :: _ => Except.ok (some (if b ≠ 0 then "Active" else "Inactive"))
  else if did == 0xF40C then
    match payload with
    | b0 :: b1 :: _ => Except.ok (some (fmtTenthsPercent b0 b1))
    | _ => Except.error PyErr.indexError
  else Except.ok none

/-- Python `==` between an `int` and a tuple is `False` (never an error). -/
def intEqTuple (_ : Nat) (_ : Nat × Nat) : Bool := false

/-- Python `k in PID_LIST` where `k = (msg.arbitration_id, pid)` (my_uds.py
line 215).  Every element of `PID_LIST` is a pair `((ecu, pid), info)`, so the
elementwise tuple comparison starts with `int == tuple`, which is `False`; the
membership test therefore never succeeds, whatever the frame. -/
def pidListMember (k : Nat × Nat) : Bool :=
  PID_LIST.any (fun e => intEqTuple k.1 e.1)

/-- The service-0x41 branch of `decode_7E8_7E9` (my_uds.py lines 209-222):
`pid = data[2]`, `payload = data[3:]`, `value = (payload[0] << 8) | payload[1]`,
then the membership test `k in PID_LIST` (always false, see `pidListMember`,
and were it true, `PID_LIST[k]` would raise `TypeError`: a list indexed with a
tuple), so the unknown-combination fallback string is returned. -/
def decode_41_branch (arb_id : Nat) (data : List Nat) : Except PyErr (Option String) :=
  match data.get? 2 with
  | none => Except.error PyErr.indexError
  | some pid =>
    match data.drop 3 with
    | _ :: _ :: _ =>
      if pidListMember (arb_id, pid) then Except.error PyErr.typeError
      else Except.ok (some ("PID " ++ pyHexUpper pid 4 ++ " Raw " ++ hexBytes data))
    | _ => Except.error PyErr.indexError

/-- The service-0x62 branch of `decode_7E8_7E9` (my_uds.py lines 226-240):
`payload = data[4:]`, `value = (payload[0] << 8) | payload[1]` (IndexError when
the frame is shorter than 6 bytes), then `value = decode_did(did, payload)`
reads the variable `did`, which is only assigned on the following line, so
every frame reaching this point raises `NameError`. -/
def decode_62_branch (data : List Nat) : Except PyErr (Option String) :=
  match data.drop 4 with
  | _ :: _ :: _ => Except.error PyErr.nameError
  | _ => Except.error PyErr.indexError

/-- The `elif data[0] >= 3 and data[1] == 0x62` test of `decode_7E8_7E9`
(my_uds.py line 226), with Python short-circuit evaluation of `data[1]`. -/
def decode_elif_62 (d0 : Nat) (data : List Nat) : Except PyErr (Option String) :=
  if 3 ≤ d0 then
    match data.get? 1 with
    | none => Except.error PyErr.indexError
    | some d1 => if d1 == 0x62 then decode_62_branch data else Except.ok none
  else Except.ok none

/-- Source my_uds.py `decode_7E8_7E9` (lines 200-240): interpret UDS or OBD-II
response frames from the ECM (0x7E8) or TCM (0x7E9).  Returns `none` where the
Python function returns `None` (empty payload, or no recognized branch). -/
def decode_7E8_7E9 (arb_id : Nat) (data : List Nat) : Except PyErr (Option String) :=
  match data with
  | [] => Except.ok none
  | d0 :: rest =>
    if d0 == 0x04 then
      match rest with
      | [] => Except.error PyErr.indexError
      | d1 :: _ =>
        if d1 == 0x41 then decode_41_branch arb_id data
        else decode_elif_62 d0 data
    else decode_elif_62 d0 data

/-- Big-endian signed 16-bit value of two bytes
(`int.from_bytes(data[i:i+2], 'big', signed=True)`). -/
def signedOfBytes2 (b0 b1 : Nat) : Int :=
  let u := b0 * 256 + b1
  if 32768 ≤ u then (u : Int) - 65536 else u

/-- Signed value of a single byte (`int.from_bytes(data[4:5], 'big', signed=True)`). -/
def signedOfByte (b : Nat) : Int :=
  if 128 ≤ b then (b : Int) - 256 else b

/-- Python `:+.2f` of `v * 0.01`: explicit sign, then `|v|/100` with two decimal
digits (the double intermediate rounds back to the exact hundredth). -/
def fmtPlusHundredths (v : Int) : String :=
  let sg := if v < 0 then "-" else "+"
  let a := v.natAbs
  sg ++ toString (a / 100) ++ "." ++ (if a % 100 < 10 then "0" else "") ++ toString (a % 100)

/-- Python `:+.1f` of a value given in tenths: explicit sign, one decimal digit. -/
def fmtPlusTenths (t : Int) : String :=
  let sg := if t < 0 then "-" else "+"
  let a := t.natAbs
  sg ++ toString (a / 10) ++ "." ++ toString (a % 10)

/-- Source my_uds.py `decode_0C9` (lines 242-262): GM SDM airbag/accelerometer
frame.  The multiplications by 0.01 and 1.5 with their `:+.2f` / `:+.1f`
formats are carried out exactly in hundredths and tenths. -/
def decode_0C9 (data : List Nat) : String :=
  match data with
  | b0 :: b1 :: b2 :: b3 :: b4 :: b5 :: b6 :: _ =>
    let long_accel := signedOfBytes2 b0 b1
    let lat_accel := signedOfBytes2 b2 b3
    let yaw_tenths := signedOfByte b4 * 15
    let ignition_on := b5 &&& 0x40 ≠ 0
    let crash_flag := b5 &&& 0x08 ≠ 0
    "Longitudinal=" ++ fmtPlusHundredths long_accel ++ " m/s², "
      ++ "Lateral=" ++ fmtPlusHundredths lat_accel ++ " m/s², "
      ++ "Yaw=" ++ fmtPlusTenths yaw_tenths ++ "°/s, "
      ++ "Ignition=" ++ (if ignition_on then "On" else "Off") ++ ", "
      ++ "Crash=" ++ (if crash_flag then "Yes" else "No") ++ ", "
      ++ "Counter=" ++ toString b6
  | _ => "Invalid SDM frame length"

/-- Source my_uds.py `ECU_NAMES` (lines 125-174), as an ordered association
list (the dict has no duplicate keys). -/
def ECU_NAMES : List (Nat × String) := [
  (0x7E0, "ECM"),
  (0x7E1, "TCM"),
  (0x7E2, "ABS / EBCM (Brake Control)"),
  (0x7E3, "SRS / Airbag Module"),
  (0x7E4, "BCM (Body Control Module)"),
  (0x7E5, "IPC (Instrument Cluster)"),
  (0x7E6, "HVAC / Climate Control"),
  (0x7E7, "Gateway / Diagnostic Manager"),
  (0x77E, "ECM (alt address, Powertrain)"),
  (0x77F, "TCM (alt address, Transmission)"),
  (0x771, "ABS (alt address)"),
  (0x772, "SRS (alt address)"),
  (0x773, "BCM (alt address)"),
  (0x774, "IPC (alt address)"),
  (0x775, "HVAC (alt address)"),
  (0x776, "Gateway (alt address)"),
  (0x0C9, "SDM"),
  (0x0F9, "BCM / Gateway Keepalive"),
  (0x199, "ECM Torque / Throttle Position"),
  (0x19D, "ECM Accelerator Pedal / Torque Request"),
  (0x12A, "ECM Fuel / Airflow Data"),
  (0x138, "ECM Lambda / AFR Sensor Data"),
  (0x17D, "Transmission / Torque Converter Status"),
  (0x17F, "Transmission / Gear Status"),
  (0x1CB, "BCM / Lighting / Accessory Data"),
  (0x1CD, "IPC (Cluster Display Data)"),
  (0x1E9, "ECM Engine Data (RPM, Torque)"),
  (0x1EB, "ECM Cruise / Idle Control"),
  (0x1ED, "ECM Engine Load / Knock Info"),
  (0x2F9, "ABS / Wheel Speed Data"),
  (0x348, "Chassis Sensor Cluster"),
  (0x34A, "Chassis / Yaw / Accel Data"),
  (0x3C9, "SDM (Airbag Module)"),
  (0x3E9, "ECM Misc Sensor Data"),
  (0x3F9, "ECM Sensor Fusion Data"),
  (0x3FB, "ECM / Fuel Trim Info"),
  (0x3FD, "IPC / Cluster Keepalive"),
  (0x4C9, "ABS Brake Pressure Data"),
  (0x4D9, "ABS / Yaw Sensor Data"),
  (0x4E9, "Steering Angle / Column Sensor"),
  (0x528, "Transfer Case / 4WD Control"),
  (0x52A, "Suspension / Ride Height / Damping")]

/-- Python `ECU_NAMES.get(key)`. -/
def ecuNamesGet (key : Nat) : Option String :=
  (ECU_NAMES.find? (fun e => e.1 == key)).map Prod.snd

/-- Source my_uds.py `decode_ecu` (lines 191-198): direction arrow from bit 3,
then the name under the normalized request id, the response id, or a hex
fallback. -/
def decode_ecu (arb_id : Nat) : String :=
  let dir := if arb_id &&& 0x08 ≠ 0 then "<--" else "-->"
  let req_id := arb_id &&& 0xFFF7
  let resp_id := arb_id ||| 0x08
  let ecu :=
    match ecuNamesGet req_id with
    | some n => n
    | none =>
      match ecuNamesGet resp_id with
      | some n => n
      | none => pyHexUpper arb_id 3
  dir ++ " " ++ ecu

/-- Source my_uds.py `decode_frame` (lines 185-189): dispatch on
`ARB_DECODERS = {0x0C9: decode_0C9, 0x7E8: decode_7E8_7E9, 0x7E9: decode_7E8_7E9}`,
raw hex fallback otherwise. -/
def decode_frame (arb_id : Nat) (data : List Nat) : Except PyErr (Option String) :=
  if arb_id == 0x0C9 then Except.ok (some (decode_0C9 data))
  else if arb_id == 0x7E8 || arb_id == 0x7E9 then decode_7E8_7E9 arb_id data
  else Except.ok (some ("Raw " ++ hexBytes data))

/-- Source my_uds.py `SummaryListener.on_message_received` (lines 276-286):
frames with the direction bit (bit 3) clear return immediately — "Requests
silent" — producing no output; response frames are echoed with the decoded
text, or with the raw bytes when `decode_frame` returned `None` or an empty
string (Python truthiness of `if decoded:`).  The result is the echoed line,
`none` when nothing is printed. -/
def summary_on_message (arb_id : Nat) (data : List Nat) (dlc : Nat) :
    Except PyErr (Option String) :=
  if arb_id &&& 0x08 == 0 then Except.ok none
  else
    match decode_frame arb_id data with
    | Except.error e => Except.error e
    | Except.ok decoded =>
      let ecu_name := decode_ecu arb_id
      match decoded with
      | some d =>
        if d.isEmpty then
          Except.ok (some ("Rx " ++ ecu_name ++ " [" ++ toString dlc ++ "] " ++ hexBytes data))
        else
          Except.ok (some ("Rx " ++ ecu_name ++ " [" ++ toString dlc ++ "] " ++ d))
      | none =>
        Except.ok (some ("Rx " ++ ecu_name ++ " [" ++ toString dlc ++ "] " ++ hexBytes data))

/-! ## Response correlation in the live view (liveview.py lines 341-383)

`liveview.run_liveview_curses` drains the frame queue and hands each frame to
`my_uds.framing(msg, pid_callback, did_callback)`; each recognized did/pid
invokes `on_didpid`, which stores the decoded text in the value cache.
`my_uds.framing` itself is not among the repository's source files, so it is
modelled from the spec below; the cache write of `on_didpid` is embedded from
the source. -/

/-- A callback invocation made by the correlator: the arguments `framing`
passes to the pid/did callbacks of `run_liveview_curses` (liveview.py lines
378-380), with `sid` 0x01 for the pid callback and 0x22 for the did callback. -/
structure CorrEvent where
  arb_id : Nat
  sid : Nat
  pid : Nat
  name : String
  desc : String
  value_str : String

/-- Catalog lookup and decode step of the correlator (spec section 4.3 steps
4-6): normalize the address by clearing bit 3, search the service's list, and
decode the value payload, substituting an error marker when the decode
function fails. -/
def framing_lookup (arb_id sid pid : Nat) (valueBytes : List Nat) : Option CorrEvent :=
  match search_list (arb_id &&& 0xFFF7) pid (if sid == 0x01 then PID_LIST else DID_LIST) with
  | none => none
  | some info =>
    some ⟨arb_id, sid, pid, info.label, info.desc,
      match info.decode valueBytes with
      | Except.ok s => s
      | Except.error e => "decode error: " ++ e⟩

/-- Modelled from the spec: `my_uds.framing` is called by
`liveview.run_liveview_curses` (lines 378-380) but is missing from the
repository's source files.  Per spec section 4.3: a frame whose direction bit
(bit 3 of the address) is clear is a request/echo and is ignored; otherwise
byte 0 is the PCI/length indicator and byte 1 the response service code, with
`0x41` carrying an 8-bit parameter id and `0x62` a 16-bit big-endian one;
short payloads and unrecognized codes are discarded silently. -/
def framing (arb_id : Nat) (data : List Nat) : Option CorrEvent :=
  if arb_id &&& 0x08 == 0 then none
  else
    match data with
    | _pci :: svc :: rest =>
      if svc == 0x41 then
        match rest with
        | pid :: valueBytes => framing_lookup arb_id 0x01 pid valueBytes
        | [] => none
      else if svc == 0x62 then
        match rest with
        | hi :: lo :: valueBytes => framing_lookup arb_id 0x22 ((hi <<< 8) ||| lo) valueBytes
        | _ => none
      else none
    | _ => none

/-- The value cache `value_cache` of liveview.py: latest decoded text per key. -/
abbrev ValueCache := SigKey → Option String

/-- The cache write of `on_didpid` (liveview.py line 354):
`value_cache[(arb_id & 0xFFF7, sid, pid)] = value`. -/
def on_didpid_store (cache : ValueCache) (arb_id sid pid : Nat) (value : String) : ValueCache :=
  fun k => if k = (arb_id &&& 0xFFF7, sid, pid) then some value else cache k

/-- One frame of the drain loop (liveview.py lines 371-383): the frame goes to
`framing`, and each callback invocation is `on_didpid`, whose cache write is
`on_didpid_store`.  (The loop's direction-bit test on line 374 ends in `pass`,
so the request/response distinction is made inside the correlator.) -/
def process_frame (cache : ValueCache) (arb_id : Nat) (data : List Nat) : ValueCache :=
  match framing arb_id data with
  | none => cache
  | some ev => on_didpid_store cache ev.arb_id ev.sid ev.pid ev.value_str

/-! ## Active-set store (liveview.py lines 390-409) -/

/-- A Python tuple of integers, as round-tripped through the JSON state file
(`json.dumps` writes each tuple as an array; `tuple(item)` re-tuples it). -/
abbrev PyIntTuple := List Int

/-- The Python tuple corresponding to a signal-key triple. -/
def keyAsTuple (k : SigKey) : PyIntTuple :=
  [(k.1 : Int), (k.2.1 : Int), (k.2.2 : Int)]

/-- Source liveview.py `save_active_flags` (lines 404-409):
`json.dumps(list(active_keys))` — the active set enumerated in some order `l`
and serialized as a JSON array of integer arrays. -/
def save_active_flags (l : List SigKey) : List PyIntTuple :=
  l.map keyAsTuple

/-- Source liveview.py `load_active_flags` (lines 390-402).  Reading and
parsing the state file (`STATE_FILE.read_text()` plus `json.loads`) either
raises — absent file, unreadable file, empty or otherwise invalid content —
or yields the parsed array; the embedding takes that outcome as input.  On
success the result is `{tuple(item) for item in data}`; on any exception it is
`{k for k, _ in master_list}`, the full catalog key set. -/
def load_active_flags (readResult : Except Unit (List PyIntTuple))
    (master_list : List (SigKey × SigInfo)) : Finset PyIntTuple :=
  match readResult with
  | Except.ok data => data.toFinset
  | Except.error _ => (master_list.map (fun e => keyAsTuple e.1)).toFinset

/-! ## Interaction state machine pieces (liveview.py lines 273-339) -/

/-- Source liveview.py lines 333-338 (Configure-mode space key):
`rowkey, rowval = list(iter_all_signals())[selected]`, then flip membership of
`rowkey` in `active_keys`.  Python raises `IndexError` when `selected` is out
of range; the loop keeps `selected < len(list(iter_all_signals()))` (lines
327-331), and theorems about this function assume that bound, so the `none`
fallthrough is never exercised. -/
def toggle_signal (selected : Nat) (active_keys : Finset SigKey) : Finset SigKey :=
  match iter_all_signals.get? selected with
  | some row =>
    if row.1 ∈ active_keys then active_keys.erase row.1 else insert row.1 active_keys
  | none => active_keys

/-- A View-mode scroll command. -/
inductive ViewScrollKey where
  | down
  | up

/-- Source liveview.py lines 289-305 (View-mode key handling): KEY_DOWN/'j'
increments `scroll_offset` only while `scroll_offset + n_visible <
len(active_keys)` (with `n_visible = h - 3` the number of visible data rows);
KEY_UP/'k' decrements it only while it is positive. -/
def view_scroll_step (n_active n_visible : Int) (scroll_offset : Int) :
    ViewScrollKey → Int
  | ViewScrollKey.down =>
    if scroll_offset + n_visible < n_active then scroll_offset + 1 else scroll_offset
  | ViewScrollKey.up =>
    if 0 < scroll_offset then scroll_offset - 1 else scroll_offset

/-- The scroll offset after a sequence of View-mode scroll commands, starting
from 0 (its value on entering View mode, liveview.py lines 266 and 319). -/
def run_view_scroll (n_active n_visible : Int) (keys : List ViewScrollKey) : Int :=
  keys.foldl (view_scroll_step n_active n_visible) 0

/-! ## Helper lemmas -/

/-- Mapping preserves `isSome`. -/
theorem isSome_map {α β : Type} (f : α → β) (o : Option α) :
    (o.map f).isSome = o.isSome := by
  cases o <;> rfl

/-- When the pair search finds an entry, that entry's declared key is exactly
the searched pair. -/
theorem found_key_matches_true (arb_id pid : Nat) (l : List ((Nat × Nat) × SigInfo)) :
    found_key_matches arb_id pid l = true := by
  unfold found_key_matches
  split
  · next e heq =>
      have h2 := List.find?_some heq
      exact h2
  · rfl

/-- Membership of a triple among the declared catalog keys, reduced to the two
source lists. -/
theorem mem_catalog_keys (a s p : Nat) :
    (a, s, p) ∈ catalog_keys ↔
      ((s = 0x01 ∧ ∃ e ∈ PID_LIST, e.1 = (a, p))
        ∨ (s = 0x22 ∧ ∃ e ∈ DID_LIST, e.1 = (a, p))) := by
  simp only [catalog_keys, iter_all_signals, List.map_append, List.map_map,
    List.mem_append, List.mem_map, Function.comp_apply, Prod.ext_iff, Prod.mk.injEq]
  constructor
  · rintro (⟨e, he, h1, h2, h3⟩ | ⟨e, he, h1, h2, h3⟩)
    · exact Or.inl ⟨h2.symm, e, he, h1, h3⟩
    · exact Or.inr ⟨h2.symm, e, he, h1, h3⟩
  · rintro (⟨hs, e, he, h1, h3⟩ | ⟨hs, e, he, h1, h3⟩)
    · exact Or.inl ⟨e, he, h1, hs.symm, h3⟩
    · exact Or.inr ⟨e, he, h1, hs.symm, h3⟩

/-- The triple-to-tuple conversion is injective: integer values survive the
round trip through the state file exactly. -/
theorem keyAsTuple_injective : Function.Injective keyAsTuple := by
  intro a b h
  simp only [keyAsTuple, List.cons.injEq, Nat.cast_inj, and_true] at h
  exact Prod.ext h.1 (Prod.ext h.2.1 h.2.2)

/-- The `elif` chain of `decode_7E8_7E9` falls through to `None` when byte 1 is
neither 0x41 nor 0x62. -/
theorem decode_elif_62_unknown_svc (d0 d1 : Nat) (rest : List Nat)
    (hne : (d1 == 0x62) = false) :
    decode_elif_62 d0 (d0 :: d1 :: rest) = Except.ok none := by
  unfold decode_elif_62
  by_cases h3 : 3 ≤ d0
  · rw [if_pos h3]
    show (if (d1 == 0x62) = true then decode_62_branch (d0 :: d1 :: rest) else Except.ok none)
      = Except.ok none
    simp [hne]
  · rw [if_neg h3]

/-! ## Claim theorems -/

/-- C1: evaluation of the in-source correlator at the claimed frame.  For the
service-0x41 response frame at address 0x7E8 with parameter 0x0C and payload
bytes [0x1A, 0xF8], `decode_7E8_7E9` returns the unknown-combination fallback
string instead of the catalog RPM decode (its `k in PID_LIST` test never
succeeds and the address is not normalized), while the catalog's RPM decode
function yields "1726 rpm" = (0x1A*256+0xF8)/4 and the spec-modelled
correlator caches exactly that string under (0x7E0, 0x01, 0x0C). -/
theorem rpm_frame_not_correlated :
    decode_7E8_7E9 0x7E8 [0x04, 0x41, 0x0C, 0x1A, 0xF8]
      = Except.ok (some "PID 000C Raw 04 41 0C 1A F8")
    ∧ decode_rpm [0x1A, 0xF8] = Except.ok "1726 rpm"
    ∧ process_frame (fun _ => none) 0x7E8 [0x04, 0x41, 0x0C, 0x1A, 0xF8] (0x7E0, 0x01, 0x0C)
      = some "1726 rpm" :=
  ⟨rfl, rfl, rfl⟩

/-- C2: every inbound frame whose direction bit (bit 3 of the arbitration
address) is clear is ignored: the correlator produces no callback, the Value
Cache is left unchanged, and the summary listener prints nothing. -/
theorem request_frames_ignored (arb_id : Nat) (data : List Nat) (dlc : Nat)
    (cache : ValueCache) (h : arb_id &&& 0x08 = 0) :
    framing arb_id data = none
    ∧ process_frame cache arb_id data = cache
    ∧ summary_on_message arb_id data dlc = Except.ok none := by
  refine ⟨?_, ?_, ?_⟩
  · simp [framing, h]
  · simp [process_frame, framing, h]
  · simp [summary_on_message, h]

/-- Witness for C2 at a concrete request frame (address 0x7E0, bit 3 clear). -/
theorem request_frames_ignored_witness :
    (0x7E0 &&& 0x08 = 0)
    ∧ (framing 0x7E0 [0x02, 0x01, 0x0C] = none
       ∧ process_frame (fun _ => none) 0x7E0 [0x02, 0x01, 0x0C] = (fun _ => none)
       ∧ summary_on_message 0x7E0 [0x02, 0x01, 0x0C] 3 = Except.ok none) :=
  ⟨by decide, request_frames_ignored 0x7E0 [0x02, 0x01, 0x0C] 3 (fun _ => none) (by decide)⟩

/-- C3: evaluation of the in-source 0x62 branch.  On a well-formed service-0x62
response frame, `decode_7E8_7E9` raises `NameError`, because it invokes
`decode_did(did, payload)` before the identifier `did` is assigned — the
opposite of the id-before-decode order the claim states.  The spec-modelled
correlator, which derives the 16-bit big-endian identifier first, correctly
resolves DID 0x1901 ("AFM Mode Active") and decodes its payload. -/
theorem did_response_name_error :
    decode_7E8_7E9 0x7E8 [0x04, 0x62, 0x11, 0x00, 0xAB, 0xCD] = Except.error PyErr.nameError
    ∧ (framing 0x7E8 [0x04, 0x62, 0x19, 0x01, 0x01]).map (fun ev => (ev.sid, ev.pid, ev.value_str))
      = some (0x22, 0x1901, "Yes") :=
  ⟨rfl, rfl⟩

/-- C4: loading the persisted active set fails soft.  Whatever read or parse
error occurred (absent, unreadable or invalid file — the empty file included,
since the empty string is not valid JSON), `load_active_flags` returns exactly
the set of all catalog keys, and that set is nonempty, so the console never
starts with nothing active. -/
theorem load_active_flags_fails_soft (u : Unit) :
    (∀ t : PyIntTuple,
      t ∈ load_active_flags (Except.error u) iter_all_signals ↔
        ∃ e ∈ iter_all_signals, keyAsTuple e.1 = t)
    ∧ (load_active_flags (Except.error u) iter_all_signals).Nonempty := by
  constructor
  · intro t
    simp [load_active_flags, List.mem_toFinset, List.mem_map]
  · refine ⟨keyAsTuple (0x7E0, 0x01, 0x04), ?_⟩
    cases u
    decide

/-- C5: round trip through the state file.  Saving an arbitrary active set
(enumerated in any order `l`) and loading the written file reconstructs
exactly the image of that set under the canonical triple-to-tuple conversion,
and the conversion loses nothing: the reconstructed set has the same size, so
every `(nodeAddress, serviceId, parameterId)` integer triple is preserved
exactly, independent of order in the file. -/
theorem save_load_round_trip (s : Finset SigKey) (l : List SigKey) (hl : l.toFinset = s) :
    load_active_flags (Except.ok (save_active_flags l)) iter_all_signals = s.image keyAsTuple
    ∧ (s.image keyAsTuple).card = s.card := by
  constructor
  · subst hl
    ext t
    simp [load_active_flags, save_active_flags, List.mem_toFinset, List.mem_map,
      Finset.mem_image]
  · exact Finset.card_image_of_injective s keyAsTuple_injective

/-- Witness for C5 at a concrete one-element set. -/
theorem save_load_round_trip_witness :
    (([((0x7E0 : Nat), (0x01 : Nat), (0x0C : Nat))] : List SigKey).toFinset
        = ({((0x7E0 : Nat), (0x01 : Nat), (0x0C : Nat))} : Finset SigKey))
    ∧ (load_active_flags
          (Except.ok (save_active_flags [((0x7E0 : Nat), (0x01 : Nat), (0x0C : Nat))]))
          iter_all_signals
        = ({((0x7E0 : Nat), (0x01 : Nat), (0x0C : Nat))} : Finset SigKey).image keyAsTuple
       ∧ (({((0x7E0 : Nat), (0x01 : Nat), (0x0C : Nat))} : Finset SigKey).image keyAsTuple).card
          = ({((0x7E0 : Nat), (0x01 : Nat), (0x0C : Nat))} : Finset SigKey).card) :=
  ⟨rfl, save_load_round_trip _ _ rfl⟩

/-- C6: View-mode scroll clamp.  For an active set of size N and a visible
window of V rows, after any sequence of scroll-down and scroll-up commands the
scroll offset stays within [0, max 0 (N − V)]. -/
theorem view_scroll_offset_clamped (n_active n_visible : Int) (keys : List ViewScrollKey) :
    0 ≤ run_view_scroll n_active n_visible keys
    ∧ run_view_scroll n_active n_visible keys ≤ max 0 (n_active - n_visible) := by
  have step : ∀ (so : Int) (k : ViewScrollKey),
      0 ≤ so → so ≤ max 0 (n_active - n_visible) →
      0 ≤ view_scroll_step n_active n_visible so k
        ∧ view_scroll_step n_active n_visible so k ≤ max 0 (n_active - n_visible) := by
    intro so k h0 h1
    cases k with
    | down =>
      show 0 ≤ (if so + n_visible < n_active then so + 1 else so)
        ∧ (if so + n_visible < n_active then so + 1 else so) ≤ max 0 (n_active - n_visible)
      by_cases hc : so + n_visible < n_active
      · rw [if_pos hc]
        exact ⟨by omega, le_trans (by omega) (le_max_right 0 (n_active - n_visible))⟩
      · rw [if_neg hc]
        exact ⟨h0, h1⟩
    | up =>
      show 0 ≤ (if 0 < so then so - 1 else so)
        ∧ (if 0 < so then so - 1 else so) ≤ max 0 (n_active - n_visible)
      by_cases hc : (0 : Int) < so
      · rw [if_pos hc]
        exact ⟨by omega, le_trans (by omega) h1⟩
      · rw [if_neg hc]
        exact ⟨h0, h1⟩
  have main : ∀ (ks : List ViewScrollKey) (so : Int),
      0 ≤ so → so ≤ max 0 (n_active - n_visible) →
      0 ≤ ks.foldl (view_scroll_step n_active n_visible) so
        ∧ ks.foldl (view_scroll_step n_active n_visible) so ≤ max 0 (n_active - n_visible) := by
    intro ks
    induction ks with
    | nil => intro so h0 h1; exact ⟨h0, h1⟩
    | cons k t ih =>
      intro so h0 h1
      have h2 := step so k h0 h1
      exact ih _ h2.1 h2.2
  exact main keys 0 le_rfl (le_max_left 0 _)

/-- C7: toggle idempotence.  With the cursor on any in-range catalog position,
toggling the signal twice leaves the active set with exactly its original
membership: the first toggle flips membership of the entry at the cursor
index, the second flips it back. -/
theorem toggle_signal_involutive (selected : Nat) (active : Finset SigKey)
    (h : selected < iter_all_signals.length) :
    toggle_signal selected (toggle_signal selected active) = active := by
  obtain ⟨row, hrow⟩ : ∃ row, iter_all_signals.get? selected = some row :=
    ⟨_, List.get?_eq_get h⟩
  have htog : ∀ t : Finset SigKey,
      toggle_signal selected t = if row.1 ∈ t then t.erase row.1 else insert row.1 t := by
    intro t
    unfold toggle_signal
    rw [hrow]
  rw [htog, htog]
  by_cases hm : row.1 ∈ active
  · rw [if_pos hm]
    have hne : row.1 ∉ active.erase row.1 := Finset.not_mem_erase _ _
    rw [if_neg hne, Finset.insert_erase hm]
  · rw [if_neg hm]
    have hin : row.1 ∈ insert row.1 active := Finset.mem_insert_self _ _
    rw [if_pos hin, Finset.erase_insert hm]

/-- Witness for C7 at cursor position 0 on the empty active set. -/
theorem toggle_signal_involutive_witness :
    0 < iter_all_signals.length
    ∧ toggle_signal 0 (toggle_signal 0 (∅ : Finset SigKey)) = (∅ : Finset SigKey) :=
  ⟨by decide, toggle_signal_involutive 0 ∅ (by decide)⟩

/-- C8 (amended): catalog lookup restricted to the two declared service ids.
For a triple whose serviceId is 0x01 or 0x22, the lookup assembled from
`search_list` succeeds exactly when the triple is a declared catalog key, and
any entry it finds has declared key equal to the searched pair.  (For other
serviceId values the dispatch falls back to a default list and can return an
entry for a non-declared triple; see the counterexample.) -/
theorem lookup_signal_restricted (a s p : Nat) (h : s = 0x01 ∨ s = 0x22) :
    ((lookup_signal a s p).isSome ↔ (a, s, p) ∈ catalog_keys)
    ∧ found_key_matches a p (if s == 0x01 then PID_LIST else DID_LIST) = true := by
  refine ⟨?_, found_key_matches_true a p _⟩
  rw [mem_catalog_keys]
  rcases h with h | h <;> subst h
  · simp only [lookup_signal, search_list, isSome_map]
    show ((PID_LIST.find? (fun e => e.1 == (a, p))).isSome = true) ↔ _
    rw [List.find?_isSome]
    simp only [beq_iff_eq]
    constructor
    · rintro ⟨e, he, hk⟩
      exact Or.inl ⟨by decide, e, he, hk⟩
    · rintro (⟨_, e, he, hk⟩ | ⟨hbad, _⟩)
      · exact ⟨e, he, hk⟩
      · exact absurd hbad (by decide)
  · simp only [lookup_signal, search_list, isSome_map]
    show ((DID_LIST.find? (fun e => e.1 == (a, p))).isSome = true) ↔ _
    rw [List.find?_isSome]
    simp only [beq_iff_eq]
    constructor
    · rintro ⟨e, he, hk⟩
      exact Or.inr ⟨by decide, e, he, hk⟩
    · rintro (⟨hbad, _⟩ | ⟨_, e, he, hk⟩)
      · exact absurd hbad (by decide)
      · exact ⟨e, he, hk⟩

/-- Counterexample for C8 as stated: the triple (0x7E0, 0x00, 0x1000) is not
the declared key of any catalog entry — service 0x00 appears nowhere in the
catalog — yet lookup does not report NotFound: the serviceId dispatch
(`PID_LIST if sid == 0x01 else DID_LIST`) sends it to `DID_LIST`, where the
pair (0x7E0, 0x1000) matches the "ECU Identification" entry. -/
theorem lookup_signal_undeclared_hit :
    (lookup_signal 0x7E0 0x00 0x1000).isSome = true
    ∧ ((0x7E0, 0x00, 0x1000) : SigKey) ∉ catalog_keys :=
  ⟨rfl, by decide⟩

/-- Witness for C8 (amended) at the declared key (0x7E0, 0x01, 0x0C). -/
theorem lookup_signal_restricted_witness :
    ((0x01 : Nat) = 0x01 ∨ (0x01 : Nat) = 0x22)
    ∧ (((lookup_signal 0x7E0 0x01 0x0C).isSome ↔ ((0x7E0, 0x01, 0x0C) : SigKey) ∈ catalog_keys)
       ∧ found_key_matches 0x7E0 0x0C
          (if (0x01 : Nat) == 0x01 then PID_LIST else DID_LIST) = true) :=
  ⟨Or.inl rfl, lookup_signal_restricted 0x7E0 0x01 0x0C (Or.inl rfl)⟩

/-- C9: an unknown or malformed response frame — empty payload, or response
service code byte 0x99 — makes `decode_7E8_7E9` return `None` without raising:
no exception escapes, nothing is produced to display or cache. -/
theorem malformed_frame_no_effect (arb_id : Nat) (data : List Nat)
    (h : data = [] ∨ data.get? 1 = some 0x99) :
    decode_7E8_7E9 arb_id data = Except.ok none := by
  rcases h with h | h
  · subst h; rfl
  · match data, h with
    | d0 :: d1 :: rest, h =>
      have hd1 : d1 = 0x99 := by
        simpa using h
      subst hd1
      show decode_7E8_7E9 arb_id (d0 :: 0x99 :: rest) = Except.ok none
      have helif : decode_elif_62 d0 (d0 :: 0x99 :: rest) = Except.ok none :=
        decode_elif_62_unknown_svc d0 0x99 rest (by decide)
      by_cases h4 : (d0 == 0x04) = true
      · simp [decode_7E8_7E9, h4, helif]
      · simp [decode_7E8_7E9, h4, helif]

/-- Witness for C9 at a concrete service-0x99 frame. -/
theorem malformed_frame_no_effect_witness :
    (([0x02, 0x99, 0x01] : List Nat) = []
      ∨ ([0x02, 0x99, 0x01] : List Nat).get? 1 = some 0x99)
    ∧ decode_7E8_7E9 0x7E8 [0x02, 0x99, 0x01] = Except.ok none :=
  ⟨Or.inr rfl, malformed_frame_no_effect 0x7E8 [0x02, 0x99, 0x01] (Or.inr rfl)⟩

/-- C10: the catalog is not key-unique.  Iterating all signals yields two
distinct rows, at positions 14 and 19, that both declare the key
(0x7E0, 0x01, 0x46) — labels "AAT" and "Ambient Air Temperature" — so the two
rows share one active-set membership and one Value Cache slot, and toggling at
either row's position flips the shared key's membership. -/
theorem duplicate_catalog_key_aat :
    (iter_all_signals.get? 14).map (fun e => (e.1, e.2.label))
      = some (((0x7E0, 0x01, 0x46) : SigKey), "AAT")
    ∧ (iter_all_signals.get? 19).map (fun e => (e.1, e.2.label))
      = some (((0x7E0, 0x01, 0x46) : SigKey), "Ambient Air Temperature")
    ∧ (∀ active : Finset SigKey,
        (((0x7E0, 0x01, 0x46) : SigKey) ∈ toggle_signal 14 active
          ↔ ((0x7E0, 0x01, 0x46) : SigKey) ∉ active)) := by
  refine ⟨rfl, rfl, ?_⟩
  intro active
  have ht : toggle_signal 14 active
      = if ((0x7E0, 0x01, 0x46) : SigKey) ∈ active
          then active.erase ((0x7E0, 0x01, 0x46) : SigKey)
          else insert (((0x7E0, 0x01, 0x46)) : SigKey) active := rfl
  rw [ht]
  by_cases hm : ((0x7E0, 0x01, 0x46) : SigKey) ∈ active
  · rw [if_pos hm]
    simp [Finset.mem_erase, hm]
  · rw [if_neg hm]
    simp [Finset.mem_insert, hm]
